import Mathlib

/-
Shallow embedding of src/libs/community/langchain_community/chat_models/cohere.py.

Python dictionaries are modelled as association lists (String × Value) with
first-match lookup; since Python dict keys are unique, theorems that need it
assume the key list is duplicate-free. Python exceptions (ValueError,
IndexError, AttributeError, TypeError) are modelled with Except String.
Python truthiness of "x or y" on optional strings is modelled by orTruthy.
-/

set_option autoImplicit false

deriving instance DecidableEq for Except

namespace CohereChat

/-- Message kinds: ChatMessage, HumanMessage, AIMessage, SystemMessage are the
recognized BaseMessage subclasses; function and tool stand for the remaining
BaseMessage subclasses (FunctionMessage, ToolMessage) that get_role rejects. -/
inductive MessageKind where
  | chat
  | human
  | ai
  | system
  | function
  | tool
  deriving DecidableEq, Repr

/-- A BaseMessage: a kind tag plus its text content. -/
structure Message where
  kind : MessageKind
  content : String
  deriving DecidableEq, Repr

/-- Embeds get_role from cohere.py: ChatMessage/HumanMessage map to "User",
AIMessage to "Chatbot", SystemMessage to "System", anything else raises
ValueError (modelled as Except.error). -/
def get_role (m : Message) : Except String String :=
  match m.kind with
  | MessageKind.chat => Except.ok "User"
  | MessageKind.human => Except.ok "User"
  | MessageKind.ai => Except.ok "Chatbot"
  | MessageKind.system => Except.ok "System"
  | _ => Except.error ("Got unknown type " ++ m.content)

/-- A normalized request document entry: the dict with keys "snippet", "id". -/
structure DocEntry where
  snippet : String
  id : String
  deriving DecidableEq, Repr

/-- Document metadata: a string-to-string dict, as used by metadata.get("id"). -/
abbrev Metadata := List (String × String)

/-- A langchain Document as consumed by the request builder: page_content plus
its metadata dict. -/
structure Document where
  page_content : String
  metadata : Metadata
  deriving DecidableEq, Repr

/-- A connector descriptor: a Dict[str, str] in the Python signature. -/
abbrev Connector := List (String × String)

/-- A chat_history entry: the dict with keys "role", "message". -/
structure HistEntry where
  role : String
  message : String
  deriving DecidableEq, Repr

/-- Python values that can appear in the request payload or in kwargs. -/
inductive Value where
  | none
  | str (s : String)
  | num (n : Int)
  | docs (ds : List DocEntry)
  | connectors (cs : List Connector)
  | history (h : List HistEntry)
  | sourceDocs (ds : List Document)
  deriving DecidableEq, Repr

/-- A Python dict with string keys, as an association list. -/
abbrev Dict := List (String × Value)

/-- Dict lookup, d.get(k) / d[k]: first entry whose key equals k. -/
def dget : Dict → String → Option Value
  | [], _ => Option.none
  | p :: ps, k => if p.1 = k then Option.some p.2 else dget ps k

/-- Dict membership test, "k in d". -/
def dcontains : Dict → String → Bool
  | [], _ => false
  | p :: ps, k => if p.1 = k then true else dcontains ps k

/-- Dict key removal, d.pop(k, None) for its effect on the dict. -/
def derase : Dict → String → Dict
  | [], _ => []
  | p :: ps, k => if p.1 = k then derase ps k else p :: derase ps k

/-- Dict update d[k] = v: replaces the first binding of k, else appends. -/
def dinsert : Dict → String → Value → Dict
  | [], k, v => [(k, v)]
  | p :: ps, k, v => if p.1 = k then (k, v) :: ps else p :: dinsert ps k v

/-- The dict-literal merge "{..base, **kw}": each kw entry overrides base. -/
def dmerge (base : Dict) (kw : Dict) : Dict :=
  kw.foldl (fun acc p => dinsert acc p.1 p.2) base

/-- Metadata lookup, metadata.get("id"): first entry whose key equals k. -/
def metaGet : Metadata → String → Option String
  | [], _ => Option.none
  | p :: ps, k => if p.1 = k then Option.some p.2 else metaGet ps k

/-- Python "x or y" for an optional string x: y when x is absent or falsy
(the empty string), else x. -/
def orTruthy : Option String → String → String
  | Option.none, d => d
  | Option.some s, d => if s = "" then d else s

/-- The comprehension over enumerate(kwargs["source_documents"]) starting at
index i: each document becomes a snippet/id entry, the id being
doc.metadata.get("id") or "doc-<i>". -/
def buildDocsFrom : Nat → List Document → List DocEntry
  | _, [] => []
  | i, d :: ds =>
    ⟨d.page_content, orTruthy (metaGet d.metadata "id") ("doc-" ++ toString i)⟩ ::
      buildDocsFrom (i + 1) ds

/-- The full documents comprehension, enumerate starting at 0. -/
def buildDocs (ds : List Document) : List DocEntry :=
  buildDocsFrom 0 ds

/-- One chat_history entry for message x: the role from get_role (which can
raise) paired with the message content. -/
def roleEntry (m : Message) : Except String HistEntry :=
  match get_role m with
  | Except.error e => Except.error e
  | Except.ok r => Except.ok ⟨r, m.content⟩

/-- The documents payload field: None or the normalized list. -/
def optDocsVal : Option (List DocEntry) → Value
  | Option.none => Value.none
  | Option.some ds => Value.docs ds

/-- The connectors payload field: None or the connector list. -/
def optConnVal : Option (List Connector) → Value
  | Option.none => Value.none
  | Option.some cs => Value.connectors cs

/-- The prompt_truncation payload field: None or the policy string. -/
def optStrVal : Option String → Value
  | Option.none => Value.none
  | Option.some s => Value.str s

/-- The tail of get_cohere_chat_request once the optional documents list has
been computed from kwargs["source_documents"]: pop source_documents from
kwargs, suppress connectors when documents were supplied, set
prompt_truncation to "AUTO" when documents or the connectors argument are
present, then build the payload dict: computed fields first, with the
remaining kwargs splatted over them (later keys override). messages[-1] on an
empty list raises IndexError; get_role on an unknown kind raises ValueError. -/
def buildRequestWith (messages : List Message)
    (connectors : Option (List Connector)) (kwargs : Dict)
    (documents : Option (List DocEntry)) : Except String Dict :=
  match messages.getLast? with
  | Option.none => Except.error "IndexError: list index out of range"
  | Option.some lastMsg =>
    match messages.dropLast.mapM roleEntry with
    | Except.error e => Except.error e
    | Except.ok hist =>
      Except.ok (dmerge
        [("message", Value.str lastMsg.content),
         ("chat_history", Value.history hist),
         ("documents", optDocsVal documents),
         ("connectors",
           optConnVal (if documents.isSome then Option.none else connectors)),
         ("prompt_truncation",
           optStrVal (if documents.isSome || connectors.isSome then Option.some "AUTO"
                      else Option.none))]
        (derase kwargs "source_documents"))

/-- Embeds get_cohere_chat_request from cohere.py. The documents are None when
"source_documents" is not in kwargs, else the normalized comprehension over
the supplied document list (a non-document-list value there is a TypeError, as
the comprehension would raise on it); the rest is buildRequestWith. -/
def get_cohere_chat_request (messages : List Message)
    (connectors : Option (List Connector)) (kwargs : Dict) :
    Except String Dict :=
  match dget kwargs "source_documents" with
  | Option.some (Value.sourceDocs ds) =>
    buildRequestWith messages connectors kwargs (Option.some (buildDocs ds))
  | Option.none => buildRequestWith messages connectors kwargs Option.none
  | Option.some _ => Except.error "TypeError: source_documents is not a document list"

/-- A vendor stream event: its event_type tag and its text payload (the text
is only read by the handler when the tag is "text-generation"). -/
structure StreamEvent where
  event_type : String
  text : String
  deriving DecidableEq, Repr

/-- A result chunk: the incremental text carried by an AIMessageChunk. -/
structure ChatGenerationChunk where
  content : String
  deriving DecidableEq, Repr

/-- Embeds the loop bodies of ChatCohere._stream and ChatCohere._astream
(which are textually identical up to await): for each event whose event_type
is "text-generation", a chunk with that event's text is yielded, and, when a
run_manager is supplied, on_llm_new_token is called with the delta and the
chunk. Returns the yielded chunks and the (delta, chunk) callback calls. -/
def streamRun (hasRunManager : Bool) :
    List StreamEvent → List ChatGenerationChunk × List (String × ChatGenerationChunk)
  | [] => ([], [])
  | e :: es =>
    let rest := streamRun hasRunManager es
    if e.event_type = "text-generation" then
      (⟨e.text⟩ :: rest.1,
       if hasRunManager then (e.text, (⟨e.text⟩ : ChatGenerationChunk)) :: rest.2 else rest.2)
    else rest

/-- Written from the spec: the chunks the streaming handler should yield are
exactly the "text-generation" events, in order, each wrapped into a chunk
carrying its incremental text. Used to state C5 against streamRun. -/
def specTextChunks (events : List StreamEvent) : List ChatGenerationChunk :=
  (events.filter (fun e => e.event_type == "text-generation")).map (fun e => ⟨e.text⟩)

/-- A vendor chat response object: its text plus the metadata attributes.
An Option.none field models the attribute being absent from the object
(hasattr false / AttributeError on access), matching the dynamic lookups the
Python code performs on the response. -/
structure CohereResponse where
  text : String
  documents : Option Value
  citations : Option Value
  search_results : Option Value
  search_queries : Option Value
  token_count : Option Value
  deriving DecidableEq, Repr

/-- Embeds ChatCohere._get_generation_info: a dict literal reading the five
attributes documents, citations, search_results, search_queries, token_count
off the response, in that order; a missing attribute raises AttributeError. -/
def get_generation_info (r : CohereResponse) : Except String Dict :=
  match r.documents with
  | Option.none => Except.error "AttributeError: documents"
  | Option.some d =>
    match r.citations with
    | Option.none => Except.error "AttributeError: citations"
    | Option.some c =>
      match r.search_results with
      | Option.none => Except.error "AttributeError: search_results"
      | Option.some sr =>
        match r.search_queries with
        | Option.none => Except.error "AttributeError: search_queries"
        | Option.some sq =>
          match r.token_count with
          | Option.none => Except.error "AttributeError: token_count"
          | Option.some tc =>
            Except.ok [("documents", d), ("citations", c), ("search_results", sr),
                       ("search_queries", sq), ("token_count", tc)]

/-- A ChatGeneration: the AIMessage built from the response text plus the
optional generation_info dict. -/
structure ChatGeneration where
  message : Message
  generation_info : Option Dict
  deriving DecidableEq, Repr

/-- A ChatResult: its list of generations. -/
structure ChatResult where
  generations : List ChatGeneration
  deriving DecidableEq, Repr

/-- Embeds the non-streaming unwrapping shared by ChatCohere._generate and
ChatCohere._agenerate, as a function of the vendor response (the client.chat
call itself is the out-of-scope vendor SDK): message = AIMessage(response.text);
generation_info is attached via _get_generation_info exactly when the response
has a documents attribute; the result holds that single generation. -/
def generateUnwrap (r : CohereResponse) : Except String ChatResult :=
  let message : Message := ⟨MessageKind.ai, r.text⟩
  if r.documents.isSome then
    match get_generation_info r with
    | Except.error e => Except.error e
    | Except.ok gi => Except.ok ⟨[⟨message, Option.some gi⟩]⟩
  else
    Except.ok ⟨[⟨message, Option.none⟩]⟩

/-- Written from the amended claim C8: entry i of the normalized document list
keeps the snippet and takes the explicit metadata id when a non-empty one is
supplied, and the positional id "doc-<i>" otherwise. -/
def specDocEntry (i : Nat) (d : Document) : DocEntry :=
  match metaGet d.metadata "id" with
  | Option.some s =>
    if s = "" then ⟨d.page_content, "doc-" ++ toString i⟩ else ⟨d.page_content, s⟩
  | Option.none => ⟨d.page_content, "doc-" ++ toString i⟩

/-- Tests whether a payload field holds a document list. -/
def isDocListB : Option Value → Bool
  | Option.some (Value.docs _) => true
  | _ => false

/-- Tests whether a payload field holds a connector list. -/
def isConnListB : Option Value → Bool
  | Option.some (Value.connectors _) => true
  | _ => false

/-- A key is absent from a dict exactly when lookup gives nothing. -/
theorem dget_eq_none_iff_dcontains (d : Dict) (k : String) :
    dget d k = Option.none ↔ dcontains d k = false := by
  induction d with
  | nil => simp [dget, dcontains]
  | cons p ps ih =>
    by_cases h : p.1 = k <;> simp [dget, dcontains, h, ih]

/-- A successful lookup means the key is present. -/
theorem dcontains_eq_true_of_dget {d : Dict} {k : String} {v : Value}
    (h : dget d k = Option.some v) : dcontains d k = true := by
  cases hc : dcontains d k
  · rw [(dget_eq_none_iff_dcontains d k).2 hc] at h
    cases h
  · rfl

/-- Lookup of a key outside the key list gives nothing. -/
theorem dget_eq_none_of_not_mem {d : Dict} {k : String}
    (h : ¬ k ∈ d.map Prod.fst) : dget d k = Option.none := by
  induction d with
  | nil => rfl
  | cons p ps ih =>
    rw [List.map_cons, List.mem_cons] at h
    push_neg at h
    simp only [dget]
    rw [if_neg (fun he => h.1 he.symm)]
    exact ih h.2

/-- Removing one key leaves lookups of other keys unchanged. -/
theorem dget_derase_ne (d : Dict) (r k : String) (h : k ≠ r) :
    dget (derase d r) k = dget d k := by
  induction d with
  | nil => rfl
  | cons p ps ih =>
    by_cases hp : p.1 = r
    · have hk : ¬ p.1 = k := fun he => h (by rw [← he, hp])
      simp only [derase, if_pos hp, dget, if_neg hk]
      exact ih
    · simp only [derase, if_neg hp, dget]
      by_cases hk : p.1 = k
      · simp [hk]
      · simp only [if_neg hk]
        exact ih

/-- After an update, looking up the updated key gives the new value. -/
theorem dget_dinsert_self (d : Dict) (k : String) (v : Value) :
    dget (dinsert d k v) k = Option.some v := by
  induction d with
  | nil => simp [dinsert, dget]
  | cons p ps ih =>
    by_cases hp : p.1 = k
    · simp [dinsert, hp, dget]
    · simp only [dinsert, if_neg hp, dget, if_neg hp]
      exact ih

/-- An update leaves lookups of other keys unchanged. -/
theorem dget_dinsert_ne (d : Dict) (k q : String) (v : Value) (h : ¬ k = q) :
    dget (dinsert d k v) q = dget d q := by
  induction d with
  | nil => simp [dinsert, dget, h]
  | cons p ps ih =>
    by_cases hp : p.1 = k
    · simp only [dinsert, if_pos hp, dget]
      rw [if_neg h, if_neg (by rw [hp]; exact h)]
    · simp only [dinsert, if_neg hp, dget]
      by_cases hq : p.1 = q
      · simp [hq]
      · simp only [if_neg hq]
        exact ih

/-- Unfolding dmerge on a cons. -/
theorem dmerge_cons (base : Dict) (p : String × Value) (ps : Dict) :
    dmerge base (p :: ps) = dmerge (dinsert base p.1 p.2) ps := rfl

/-- Keys not bound by the splatted kwargs keep their base-dict value. -/
theorem dget_dmerge_of_none (base kw : Dict) (k : String)
    (h : dget kw k = Option.none) : dget (dmerge base kw) k = dget base k := by
  induction kw generalizing base with
  | nil => rfl
  | cons p ps ih =>
    simp only [dget] at h
    by_cases hp : p.1 = k
    · rw [if_pos hp] at h
      cases h
    · rw [if_neg hp] at h
      rw [dmerge_cons, ih _ h, dget_dinsert_ne _ _ _ _ hp]

/-- Keys bound by the splatted kwargs take the kwargs value (dict keys being
unique, this is the single binding of the key). -/
theorem dget_dmerge_of_some (base kw : Dict) (k : String) (v : Value)
    (hnd : (kw.map Prod.fst).Nodup)
    (h : dget kw k = Option.some v) : dget (dmerge base kw) k = Option.some v := by
  induction kw generalizing base with
  | nil => cases h
  | cons p ps ih =>
    rw [List.map_cons, List.nodup_cons] at hnd
    simp only [dget] at h
    by_cases hp : p.1 = k
    · rw [if_pos hp] at h
      have hnone : dget ps k = Option.none :=
        dget_eq_none_of_not_mem (by rw [← hp]; exact hnd.1)
      rw [dmerge_cons, dget_dmerge_of_none _ _ _ hnone]
      rw [← hp, dget_dinsert_self]
      exact h
    · rw [if_neg hp] at h
      rw [dmerge_cons]
      exact ih _ hnd.2 h

/-- Removing a key introduces no new keys. -/
theorem mem_map_fst_derase {d : Dict} {r k : String}
    (h : k ∈ (derase d r).map Prod.fst) : k ∈ d.map Prod.fst := by
  induction d with
  | nil => simp [derase] at h
  | cons p ps ih =>
    by_cases hp : p.1 = r
    · simp only [derase, if_pos hp] at h
      exact List.mem_cons_of_mem _ (ih h)
    · simp only [derase, if_neg hp, List.map_cons, List.mem_cons] at h
      rcases h with h | h
      · simp [h]
      · simp [ih h]

/-- Removing a key preserves key uniqueness. -/
theorem nodup_map_fst_derase {d : Dict} {r : String}
    (h : (d.map Prod.fst).Nodup) : ((derase d r).map Prod.fst).Nodup := by
  induction d with
  | nil => simp [derase]
  | cons p ps ih =>
    rw [List.map_cons, List.nodup_cons] at h
    by_cases hp : p.1 = r
    · simp only [derase, if_pos hp]
      exact ih h.2
    · simp only [derase, if_neg hp, List.map_cons, List.nodup_cons]
      exact ⟨fun hm => h.1 (mem_map_fst_derase hm), ih h.2⟩

/-- Lookup at the head key. -/
theorem dget_cons_self (k : String) (v : Value) (ps : Dict) :
    dget ((k, v) :: ps) k = Option.some v := by
  simp [dget]

/-- Lookup skips a head entry with a different key. -/
theorem dget_cons_ne (p : String × Value) (ps : Dict) (k : String) (h : ¬ p.1 = k) :
    dget (p :: ps) k = dget ps k := by
  simp [dget, h]

/-- Inversion for buildRequestWith: a successful build exposes the last
message, the role-mapped history, and the exact payload dict. -/
theorem buildRequestWith_ok_shape {messages : List Message}
    {connectors : Option (List Connector)} {kwargs : Dict}
    {documents : Option (List DocEntry)} {p : Dict}
    (hok : buildRequestWith messages connectors kwargs documents = Except.ok p) :
    ∃ (lastMsg : Message) (hist : List HistEntry),
      messages.getLast? = Option.some lastMsg ∧
      messages.dropLast.mapM roleEntry = Except.ok hist ∧
      p = dmerge
        [("message", Value.str lastMsg.content),
         ("chat_history", Value.history hist),
         ("documents", optDocsVal documents),
         ("connectors",
           optConnVal (if documents.isSome then Option.none else connectors)),
         ("prompt_truncation",
           optStrVal (if documents.isSome || connectors.isSome then Option.some "AUTO"
                      else Option.none))]
        (derase kwargs "source_documents") := by
  unfold buildRequestWith at hok
  cases hl : messages.getLast? with
  | none => rw [hl] at hok; cases hok
  | some lastMsg =>
    rw [hl] at hok
    cases hm : messages.dropLast.mapM roleEntry with
    | error e => rw [hm] at hok; cases hok
    | ok hist =>
      rw [hm] at hok
      injection hok with hok
      exact ⟨lastMsg, hist, rfl, rfl, hok.symm⟩

/-- Inversion for get_cohere_chat_request: a successful build exposes the last
message, the role-mapped history, the documents computed from the
source_documents keyword, and the exact payload dict. -/
theorem build_ok_shape {messages : List Message}
    {connectors : Option (List Connector)} {kwargs : Dict} {p : Dict}
    (hok : get_cohere_chat_request messages connectors kwargs = Except.ok p) :
    ∃ (lastMsg : Message) (hist : List HistEntry) (documents : Option (List DocEntry)),
      messages.getLast? = Option.some lastMsg ∧
      messages.dropLast.mapM roleEntry = Except.ok hist ∧
      (documents = Option.none ↔ dcontains kwargs "source_documents" = false) ∧
      (∀ ds : List Document,
        dget kwargs "source_documents" = Option.some (Value.sourceDocs ds) →
          documents = Option.some (buildDocs ds)) ∧
      p = dmerge
        [("message", Value.str lastMsg.content),
         ("chat_history", Value.history hist),
         ("documents", optDocsVal documents),
         ("connectors",
           optConnVal (if documents.isSome then Option.none else connectors)),
         ("prompt_truncation",
           optStrVal (if documents.isSome || connectors.isSome then Option.some "AUTO"
                      else Option.none))]
        (derase kwargs "source_documents") := by
  unfold get_cohere_chat_request at hok
  cases hsd : dget kwargs "source_documents" with
  | none =>
    rw [hsd] at hok
    obtain ⟨lastMsg, hist, hl, hm, hp⟩ := buildRequestWith_ok_shape hok
    refine ⟨lastMsg, hist, Option.none, hl, hm, ?_, ?_, hp⟩
    · simp [(dget_eq_none_iff_dcontains kwargs "source_documents").1 hsd]
    · intro ds hds
      cases hds
  | some v =>
    rw [hsd] at hok
    cases v with
    | sourceDocs ds =>
      obtain ⟨lastMsg, hist, hl, hm, hp⟩ := buildRequestWith_ok_shape hok
      refine ⟨lastMsg, hist, Option.some (buildDocs ds), hl, hm, ?_, ?_, hp⟩
      · simp [dcontains_eq_true_of_dget hsd]
      · intro ds2 hds
        injection hds with hds
        injection hds with hds
        rw [hds]
    | none => cases hok
    | str s => cases hok
    | num n => cases hok
    | docs ds => cases hok
    | connectors cs => cases hok
    | history hh => cases hok

/-- Looking up "message" in the computed payload base. -/
theorem base_message (a b c d e : Value) :
    dget [("message", a), ("chat_history", b), ("documents", c), ("connectors", d),
          ("prompt_truncation", e)] "message" = Option.some a := by
  rw [dget_cons_self]

/-- Looking up "chat_history" in the computed payload base. -/
theorem base_chat_history (a b c d e : Value) :
    dget [("message", a), ("chat_history", b), ("documents", c), ("connectors", d),
          ("prompt_truncation", e)] "chat_history" = Option.some b := by
  simp [dget]

/-- Looking up "documents" in the computed payload base. -/
theorem base_documents (a b c d e : Value) :
    dget [("message", a), ("chat_history", b), ("documents", c), ("connectors", d),
          ("prompt_truncation", e)] "documents" = Option.some c := by
  simp [dget]

/-- Looking up "connectors" in the computed payload base. -/
theorem base_connectors (a b c d e : Value) :
    dget [("message", a), ("chat_history", b), ("documents", c), ("connectors", d),
          ("prompt_truncation", e)] "connectors" = Option.some d := by
  simp [dget]

/-- Looking up "prompt_truncation" in the computed payload base. -/
theorem base_prompt_truncation (a b c d e : Value) :
    dget [("message", a), ("chat_history", b), ("documents", c), ("connectors", d),
          ("prompt_truncation", e)] "prompt_truncation" = Option.some e := by
  simp [dget]

/-- A payload field not named by kwargs keeps its computed value: combines the
merge and erase lemmas for the shape produced by build_ok_shape. -/
theorem dget_payload_computed (base kwargs : Dict) (k : String)
    (hk : dcontains kwargs k = false) (hne : k ≠ "source_documents") :
    dget (dmerge base (derase kwargs "source_documents")) k = dget base k := by
  rw [dget_dmerge_of_none]
  rw [dget_derase_ne _ _ _ hne]
  exact (dget_eq_none_iff_dcontains kwargs k).2 hk

/-- Claim C3: get_role maps chat (generic) and human messages to "User",
ai messages to "Chatbot", system messages to "System", and raises a ValueError
if and only if the message kind is none of these four. -/
theorem get_role_total_spec (m : Message) :
    (get_role m = Except.ok "User" ↔
      (m.kind = MessageKind.chat ∨ m.kind = MessageKind.human)) ∧
    (get_role m = Except.ok "Chatbot" ↔ m.kind = MessageKind.ai) ∧
    (get_role m = Except.ok "System" ↔ m.kind = MessageKind.system) ∧
    ((get_role m).isOk = false ↔
      ¬(m.kind = MessageKind.chat ∨ m.kind = MessageKind.human ∨
        m.kind = MessageKind.ai ∨ m.kind = MessageKind.system)) := by
  obtain ⟨k, c⟩ := m
  cases k <;> simp [get_role, Except.isOk, Except.toBool]

/-- Witness for C3 at two concrete messages is not needed (no hypotheses),
but the claim theorem is exercised here at a rejected kind. -/
theorem get_role_total_spec_witness :
    (get_role ⟨MessageKind.tool, "t"⟩ = Except.ok "User" ↔
      ((⟨MessageKind.tool, "t"⟩ : Message).kind = MessageKind.chat ∨
       (⟨MessageKind.tool, "t"⟩ : Message).kind = MessageKind.human)) ∧
    (get_role ⟨MessageKind.tool, "t"⟩ = Except.ok "Chatbot" ↔
      (⟨MessageKind.tool, "t"⟩ : Message).kind = MessageKind.ai) ∧
    (get_role ⟨MessageKind.tool, "t"⟩ = Except.ok "System" ↔
      (⟨MessageKind.tool, "t"⟩ : Message).kind = MessageKind.system) ∧
    ((get_role ⟨MessageKind.tool, "t"⟩).isOk = false ↔
      ¬((⟨MessageKind.tool, "t"⟩ : Message).kind = MessageKind.chat ∨
        (⟨MessageKind.tool, "t"⟩ : Message).kind = MessageKind.human ∨
        (⟨MessageKind.tool, "t"⟩ : Message).kind = MessageKind.ai ∨
        (⟨MessageKind.tool, "t"⟩ : Message).kind = MessageKind.system)) :=
  get_role_total_spec ⟨MessageKind.tool, "t"⟩

/-- Claim C5: over any finite event sequence, the streaming handler yields
exactly one chunk per "text-generation" event, in event order, each carrying
that event's text; other event types yield nothing; with a run manager every
yielded chunk is reported to on_llm_new_token with its delta, and without one
nothing is reported. -/
theorem stream_chunks_spec (events : List StreamEvent) :
    (streamRun true events).1 = specTextChunks events ∧
    (streamRun false events).1 = specTextChunks events ∧
    (streamRun true events).2 = (specTextChunks events).map (fun c => (c.content, c)) ∧
    (streamRun false events).2 = [] := by
  induction events with
  | nil => exact ⟨rfl, rfl, rfl, rfl⟩
  | cons e es ih =>
    obtain ⟨h1, h2, h3, h4⟩ := ih
    by_cases h : e.event_type = "text-generation" <;>
      simp [streamRun, specTextChunks, beq_iff_eq, h, h1, h2, h3, h4] at *

/-- Witness for C5: the three-event stream from the spec example, with one
foreign event interleaved. -/
theorem stream_chunks_spec_witness :
    (streamRun true [⟨"text-generation", "a"⟩, ⟨"search-results", "x"⟩,
        ⟨"text-generation", "b"⟩, ⟨"text-generation", "c"⟩]).1 =
      specTextChunks [⟨"text-generation", "a"⟩, ⟨"search-results", "x"⟩,
        ⟨"text-generation", "b"⟩, ⟨"text-generation", "c"⟩] ∧
    (streamRun false [⟨"text-generation", "a"⟩, ⟨"search-results", "x"⟩,
        ⟨"text-generation", "b"⟩, ⟨"text-generation", "c"⟩]).1 =
      specTextChunks [⟨"text-generation", "a"⟩, ⟨"search-results", "x"⟩,
        ⟨"text-generation", "b"⟩, ⟨"text-generation", "c"⟩] ∧
    (streamRun true [⟨"text-generation", "a"⟩, ⟨"search-results", "x"⟩,
        ⟨"text-generation", "b"⟩, ⟨"text-generation", "c"⟩]).2 =
      (specTextChunks [⟨"text-generation", "a"⟩, ⟨"search-results", "x"⟩,
        ⟨"text-generation", "b"⟩, ⟨"text-generation", "c"⟩]).map (fun c => (c.content, c)) ∧
    (streamRun false [⟨"text-generation", "a"⟩, ⟨"search-results", "x"⟩,
        ⟨"text-generation", "b"⟩, ⟨"text-generation", "c"⟩]).2 = [] :=
  stream_chunks_spec [⟨"text-generation", "a"⟩, ⟨"search-results", "x"⟩,
    ⟨"text-generation", "b"⟩, ⟨"text-generation", "c"⟩]

/-- Claim C2: for a non-empty message list, the built request's "message"
field is the last message's text content, and its "chat_history" field is the
list of role/message pairs obtained by role-mapping each preceding message in
order; stated for payload builds where no passthrough keyword shadows those
two payload keys (the spec's passthrough-precedence rule governs shadowing). -/
theorem request_message_and_history
    (messages : List Message) (connectors : Option (List Connector))
    (kwargs : Dict) (lastMsg : Message) (hist : List HistEntry) (p : Dict)
    (hlast : messages.getLast? = Option.some lastMsg)
    (hhist : messages.dropLast.mapM roleEntry = Except.ok hist)
    (hm : dcontains kwargs "message" = false)
    (hh : dcontains kwargs "chat_history" = false)
    (hok : get_cohere_chat_request messages connectors kwargs = Except.ok p) :
    dget p "message" = Option.some (Value.str lastMsg.content) ∧
    dget p "chat_history" = Option.some (Value.history hist) := by
  obtain ⟨lm, hs, docs, hl2, hm2, _, _, hp⟩ := build_ok_shape hok
  rw [hlast] at hl2
  injection hl2 with hl2
  rw [hhist] at hm2
  injection hm2 with hm2
  subst hl2
  subst hm2
  constructor
  · rw [hp, dget_payload_computed _ _ _ hm (by decide), base_message]
  · rw [hp, dget_payload_computed _ _ _ hh (by decide), base_chat_history]

/-- Witness for C2: the spec's example history; the current turn is the last
message and the two prior turns are role-mapped in order. -/
theorem request_message_and_history_witness :
    dget [("message", Value.str "how are you"),
          ("chat_history", Value.history [⟨"User", "hi"⟩, ⟨"Chatbot", "hello"⟩]),
          ("documents", Value.none), ("connectors", Value.none),
          ("prompt_truncation", Value.none)] "message"
      = Option.some (Value.str (Message.content ⟨MessageKind.human, "how are you"⟩)) ∧
    dget [("message", Value.str "how are you"),
          ("chat_history", Value.history [⟨"User", "hi"⟩, ⟨"Chatbot", "hello"⟩]),
          ("documents", Value.none), ("connectors", Value.none),
          ("prompt_truncation", Value.none)] "chat_history"
      = Option.some (Value.history [⟨"User", "hi"⟩, ⟨"Chatbot", "hello"⟩]) :=
  request_message_and_history
    [⟨MessageKind.human, "hi"⟩, ⟨MessageKind.ai, "hello"⟩, ⟨MessageKind.human, "how are you"⟩]
    Option.none [] ⟨MessageKind.human, "how are you"⟩
    [⟨"User", "hi"⟩, ⟨"Chatbot", "hello"⟩] _
    (by decide) (by decide) (by decide) (by decide) (by decide)

/-- Claim C9: any passthrough keyword (a kwargs key other than the messages,
connectors and source_documents parameters; in a Python call the first two can
never land in kwargs, since those names bind the positional/named parameters)
appears in the built payload with the caller-supplied value, overriding any
computed field of the same name. -/
theorem passthrough_overrides
    (messages : List Message) (connectors : Option (List Connector))
    (kwargs : Dict) (p : Dict) (k : String) (v : Value)
    (hnd : (kwargs.map Prod.fst).Nodup)
    (_hk1 : k ≠ "messages") (_hk2 : k ≠ "connectors") (hk3 : k ≠ "source_documents")
    (hv : dget kwargs k = Option.some v)
    (hok : get_cohere_chat_request messages connectors kwargs = Except.ok p) :
    dget p k = Option.some v := by
  obtain ⟨lm, hs, docs, _, _, _, _, hp⟩ := build_ok_shape hok
  rw [hp]
  apply dget_dmerge_of_some
  · exact nodup_map_fst_derase hnd
  · rw [dget_derase_ne _ _ _ hk3]
    exact hv

/-- Witness for C9: a passthrough keyword named prompt_truncation overrides
the computed prompt_truncation field. -/
theorem passthrough_overrides_witness :
    dget [("message", Value.str "hi"), ("chat_history", Value.history []),
          ("documents", Value.none), ("connectors", Value.none),
          ("prompt_truncation", Value.str "NONE")] "prompt_truncation"
      = Option.some (Value.str "NONE") :=
  passthrough_overrides [⟨MessageKind.human, "hi"⟩] Option.none
    [("prompt_truncation", Value.str "NONE")] _ "prompt_truncation" (Value.str "NONE")
    (by decide) (by decide) (by decide) (by decide) (by decide) (by decide)

/-- Claim C4 counterexample: with neither documents nor connectors present, a
passthrough keyword named prompt_truncation still fills the payload's
prompt_truncation field ("AUTO" here), where the claim requires it to be None
whenever neither list is present in the request. -/
theorem truncation_override_counterexample :
    (get_cohere_chat_request [⟨MessageKind.human, "hi"⟩] Option.none
        [("prompt_truncation", Value.str "AUTO")]).map
      (fun p => (dget p "documents", dget p "connectors", dget p "prompt_truncation"))
    = Except.ok (Option.some Value.none, Option.some Value.none,
                 Option.some (Value.str "AUTO")) := by decide

/-- Claim C4 (amended): provided no passthrough keyword named
prompt_truncation, documents or connectors is supplied (the
passthrough-precedence rule otherwise overrides the field, as the
counterexample shows), the payload's prompt_truncation field is the string
"AUTO" exactly when the payload carries a documents list or a connectors
list, and is None otherwise. -/
theorem truncation_policy_auto_iff
    (messages : List Message) (connectors : Option (List Connector))
    (kwargs : Dict) (p : Dict)
    (h1 : dcontains kwargs "prompt_truncation" = false)
    (h2 : dcontains kwargs "documents" = false)
    (h3 : dcontains kwargs "connectors" = false)
    (hok : get_cohere_chat_request messages connectors kwargs = Except.ok p) :
    (dget p "prompt_truncation" = Option.some (Value.str "AUTO") ↔
      (isDocListB (dget p "documents") || isConnListB (dget p "connectors")) = true) ∧
    (dget p "prompt_truncation" = Option.some (Value.str "AUTO") ∨
      dget p "prompt_truncation" = Option.some Value.none) := by
  obtain ⟨lm, hs, docs, _, _, _, _, hp⟩ := build_ok_shape hok
  have hd : dget p "documents" = Option.some (optDocsVal docs) := by
    rw [hp, dget_payload_computed _ _ _ h2 (by decide), base_documents]
  have hc : dget p "connectors" =
      Option.some (optConnVal (if docs.isSome then Option.none else connectors)) := by
    rw [hp, dget_payload_computed _ _ _ h3 (by decide), base_connectors]
  have ht : dget p "prompt_truncation" =
      Option.some (optStrVal (if docs.isSome || connectors.isSome then Option.some "AUTO"
                              else Option.none)) := by
    rw [hp, dget_payload_computed _ _ _ h1 (by decide), base_prompt_truncation]
  rw [hd, hc, ht]
  cases docs with
  | some ds =>
    cases connectors <;>
      simp [optDocsVal, optConnVal, optStrVal, isDocListB, isConnListB]
  | none =>
    cases connectors <;>
      simp [optDocsVal, optConnVal, optStrVal, isDocListB, isConnListB]

/-- Witness for the amended C4: a plain call with no documents and no
connectors; the prompt_truncation field is None and the iff holds with both
sides false. -/
theorem truncation_policy_auto_iff_witness :
    (dget [("message", Value.str "hi"), ("chat_history", Value.history []),
           ("documents", Value.none), ("connectors", Value.none),
           ("prompt_truncation", Value.none)] "prompt_truncation"
        = Option.some (Value.str "AUTO") ↔
      (isDocListB (dget [("message", Value.str "hi"), ("chat_history", Value.history []),
           ("documents", Value.none), ("connectors", Value.none),
           ("prompt_truncation", Value.none)] "documents") ||
       isConnListB (dget [("message", Value.str "hi"), ("chat_history", Value.history []),
           ("documents", Value.none), ("connectors", Value.none),
           ("prompt_truncation", Value.none)] "connectors")) = true) ∧
    (dget [("message", Value.str "hi"), ("chat_history", Value.history []),
           ("documents", Value.none), ("connectors", Value.none),
           ("prompt_truncation", Value.none)] "prompt_truncation"
        = Option.some (Value.str "AUTO") ∨
     dget [("message", Value.str "hi"), ("chat_history", Value.history []),
           ("documents", Value.none), ("connectors", Value.none),
           ("prompt_truncation", Value.none)] "prompt_truncation"
        = Option.some Value.none) :=
  truncation_policy_auto_iff [⟨MessageKind.human, "hi"⟩] Option.none [] _
    (by decide) (by decide) (by decide) (by decide)

/-- Claim C1 counterexample: a passthrough keyword named "documents" combined
with a connectors argument yields a payload holding both a document list and a
connector list, against the claim's mutual-exclusivity invariant. -/
theorem docs_and_connectors_coexist :
    (get_cohere_chat_request [⟨MessageKind.human, "hi"⟩]
        (Option.some [[("id", "web-search")]])
        [("documents", Value.docs [⟨"x", "doc-0"⟩])]).map
      (fun p => (dget p "documents", dget p "connectors"))
    = Except.ok (Option.some (Value.docs [⟨"x", "doc-0"⟩]),
                 Option.some (Value.connectors [[("id", "web-search")]])) := by decide

/-- Claim C1 (amended): whenever the caller supplies source_documents, the
payload's connectors field is None regardless of the connectors argument (in a
Python call kwargs can never carry a "connectors" key, since that name binds
the named parameter, which the first hypothesis records); and provided no
passthrough keyword named "documents" is supplied, the payload never holds
both a document list and a connector list (the counterexample shows such a
keyword breaks the unconditional invariant). -/
theorem docs_suppress_connectors
    (messages : List Message) (connectors : Option (List Connector))
    (kwargs : Dict) (p : Dict)
    (hc : dcontains kwargs "connectors" = false)
    (hok : get_cohere_chat_request messages connectors kwargs = Except.ok p) :
    (dcontains kwargs "source_documents" = true →
      dget p "connectors" = Option.some Value.none) ∧
    (dcontains kwargs "documents" = false →
      ¬(isDocListB (dget p "documents") = true ∧
        isConnListB (dget p "connectors") = true)) := by
  obtain ⟨lm, hs, docs, _, _, hiff, _, hp⟩ := build_ok_shape hok
  have hcf : dget p "connectors" =
      Option.some (optConnVal (if docs.isSome then Option.none else connectors)) := by
    rw [hp, dget_payload_computed _ _ _ hc (by decide), base_connectors]
  constructor
  · intro hsd
    cases docs with
    | none =>
      rw [hiff.1 rfl] at hsd
      cases hsd
    | some ds =>
      rw [hcf]
      simp [optConnVal]
  · intro hdk hboth
    have hdf : dget p "documents" = Option.some (optDocsVal docs) := by
      rw [hp, dget_payload_computed _ _ _ hdk (by decide), base_documents]
    cases docs with
    | none =>
      rw [hdf] at hboth
      simp [optDocsVal, isDocListB] at hboth
    | some ds =>
      rw [hcf] at hboth
      simp [optConnVal, isConnListB] at hboth

/-- Witness for the amended C1: source_documents supplied together with a
connectors argument; the payload's connectors field is None. -/
theorem docs_suppress_connectors_witness :
    dget [("message", Value.str "hi"), ("chat_history", Value.history []),
          ("documents", Value.docs [⟨"x", "doc-0"⟩]), ("connectors", Value.none),
          ("prompt_truncation", Value.str "AUTO")] "connectors"
      = Option.some Value.none :=
  (docs_suppress_connectors [⟨MessageKind.human, "hi"⟩]
      (Option.some [[("id", "web-search")]])
      [("source_documents", Value.sourceDocs [⟨"x", []⟩])] _
      (by decide) (by decide)).1 (by decide)

/-- Claim C10: supplying source_documents as an empty list makes the payload's
documents field the present-but-empty list (not None), suppresses connectors
to None, and sets prompt_truncation to "AUTO", even though no document content
was provided; stated for builds where no passthrough keyword shadows those
three payload keys. -/
theorem empty_source_documents
    (messages : List Message) (connectors : Option (List Connector))
    (kwargs : Dict) (p : Dict)
    (hsd : dget kwargs "source_documents" = Option.some (Value.sourceDocs []))
    (h2 : dcontains kwargs "documents" = false)
    (h3 : dcontains kwargs "connectors" = false)
    (h1 : dcontains kwargs "prompt_truncation" = false)
    (hok : get_cohere_chat_request messages connectors kwargs = Except.ok p) :
    dget p "documents" = Option.some (Value.docs []) ∧
    dget p "connectors" = Option.some Value.none ∧
    dget p "prompt_truncation" = Option.some (Value.str "AUTO") := by
  obtain ⟨lm, hs, docs, _, _, _, hforall, hp⟩ := build_ok_shape hok
  have hdocs : docs = Option.some (buildDocs []) := hforall [] hsd
  refine ⟨?_, ?_, ?_⟩
  · rw [hp, dget_payload_computed _ _ _ h2 (by decide), base_documents, hdocs]
    rfl
  · rw [hp, dget_payload_computed _ _ _ h3 (by decide), base_connectors, hdocs]
    rfl
  · rw [hp, dget_payload_computed _ _ _ h1 (by decide), base_prompt_truncation, hdocs]
    rfl

/-- Witness for C10: an empty source_documents list next to a connectors
argument; documents is the empty list, connectors None, truncation "AUTO". -/
theorem empty_source_documents_witness :
    dget [("message", Value.str "hi"), ("chat_history", Value.history []),
          ("documents", Value.docs []), ("connectors", Value.none),
          ("prompt_truncation", Value.str "AUTO")] "documents"
      = Option.some (Value.docs []) ∧
    dget [("message", Value.str "hi"), ("chat_history", Value.history []),
          ("documents", Value.docs []), ("connectors", Value.none),
          ("prompt_truncation", Value.str "AUTO")] "connectors"
      = Option.some Value.none ∧
    dget [("message", Value.str "hi"), ("chat_history", Value.history []),
          ("documents", Value.docs []), ("connectors", Value.none),
          ("prompt_truncation", Value.str "AUTO")] "prompt_truncation"
      = Option.some (Value.str "AUTO") :=
  empty_source_documents [⟨MessageKind.human, "hi"⟩]
    (Option.some [[("id", "web-search")]])
    [("source_documents", Value.sourceDocs [])] _
    (by decide) (by decide) (by decide) (by decide) (by decide)

/-- The source comprehension's id rule agrees with the per-entry rule of the
amended claim C8: explicit non-empty id, else positional "doc-<i>". -/
theorem buildDocsFrom_eq_spec (i : Nat) (ds : List Document) :
    buildDocsFrom i ds = (List.enumFrom i ds).map (fun x => specDocEntry x.1 x.2) := by
  induction ds generalizing i with
  | nil => rfl
  | cons d rest ih =>
    rw [List.enumFrom_cons, List.map_cons]
    simp only [buildDocsFrom]
    congr 1
    · cases hm : metaGet d.metadata "id" with
      | none => simp [orTruthy, specDocEntry, hm]
      | some s => by_cases hs : s = "" <;> simp [orTruthy, specDocEntry, hm, hs]
    · exact ih (i + 1)

/-- Claim C8 counterexample: a document carrying the explicitly supplied
metadata id "" is normalized to the positional id "doc-0", not to the supplied
id, because the empty string is falsy in the Python "or". -/
theorem empty_id_counterexample :
    (get_cohere_chat_request [⟨MessageKind.human, "hi"⟩] Option.none
        [("source_documents", Value.sourceDocs [⟨"x", [("id", "")]⟩])]).map
      (fun p => dget p "documents")
    = Except.ok (Option.some (Value.docs [⟨"x", "doc-0"⟩])) ∧
    ("doc-0" : String) ≠ "" := by decide

/-- Claim C8 (amended): each supplied document at position i is normalized to
snippet = its page_content and id = its explicit metadata id when a non-empty
one is supplied, or the positional "doc-<i>" otherwise (a supplied empty
string counts as absent, as the counterexample shows); stated for builds where
no passthrough keyword shadows the documents key. -/
theorem document_normalization
    (messages : List Message) (connectors : Option (List Connector))
    (kwargs : Dict) (p : Dict) (ds : List Document)
    (hsd : dget kwargs "source_documents" = Option.some (Value.sourceDocs ds))
    (h2 : dcontains kwargs "documents" = false)
    (hok : get_cohere_chat_request messages connectors kwargs = Except.ok p) :
    dget p "documents"
      = Option.some (Value.docs (ds.enum.map (fun x => specDocEntry x.1 x.2))) := by
  obtain ⟨lm, hs, docs, _, _, _, hforall, hp⟩ := build_ok_shape hok
  have hdocs : docs = Option.some (buildDocs ds) := hforall ds hsd
  rw [hp, dget_payload_computed _ _ _ h2 (by decide), base_documents, hdocs]
  simp only [optDocsVal, buildDocs, buildDocsFrom_eq_spec, List.enum_eq_enumFrom]

/-- Witness for the amended C8: three documents, one with an empty explicit
id, one with a non-empty explicit id, one with no id. -/
theorem document_normalization_witness :
    dget [("message", Value.str "hi"), ("chat_history", Value.history []),
          ("documents", Value.docs [⟨"x", "doc-0"⟩, ⟨"y", "Y7"⟩, ⟨"z", "doc-2"⟩]),
          ("connectors", Value.none), ("prompt_truncation", Value.str "AUTO")] "documents"
      = Option.some (Value.docs
          (([⟨"x", [("id", "")]⟩, ⟨"y", [("id", "Y7")]⟩, ⟨"z", []⟩] : List Document).enum.map
            (fun x => specDocEntry x.1 x.2))) :=
  document_normalization [⟨MessageKind.human, "hi"⟩] Option.none
    [("source_documents",
      Value.sourceDocs [⟨"x", [("id", "")]⟩, ⟨"y", [("id", "Y7")]⟩, ⟨"z", []⟩])] _
    [⟨"x", [("id", "")]⟩, ⟨"y", [("id", "Y7")]⟩, ⟨"z", []⟩]
    (by decide) (by decide) (by decide)

/-- Claim C6: a successful non-streaming generate yields a single generation
whose message is the AIMessage of the response text; generation metadata is
attached exactly when the response has a documents attribute, and when
attached it holds exactly the five fields documents, citations,
search_results, search_queries and token_count, with the values taken from the
response. -/
theorem generate_result_spec (r : CohereResponse) (res : ChatResult)
    (hok : generateUnwrap r = Except.ok res) :
    res = ⟨[⟨⟨MessageKind.ai, r.text⟩,
      if r.documents.isSome then
        Option.some [("documents", r.documents.getD Value.none),
                     ("citations", r.citations.getD Value.none),
                     ("search_results", r.search_results.getD Value.none),
                     ("search_queries", r.search_queries.getD Value.none),
                     ("token_count", r.token_count.getD Value.none)]
      else Option.none⟩]⟩ := by
  obtain ⟨t, od, oc, osr, osq, otc⟩ := r
  cases od <;> cases oc <;> cases osr <;> cases osq <;> cases otc <;>
    simp [generateUnwrap, get_generation_info] at hok <;>
    simp [hok.symm]

/-- Witness for C6: a response carrying all five metadata attributes. -/
theorem generate_result_spec_witness :
    (⟨[⟨⟨MessageKind.ai, "t"⟩,
        Option.some [("documents", Value.str "d"), ("citations", Value.str "c"),
                     ("search_results", Value.str "sr"),
                     ("search_queries", Value.str "sq"),
                     ("token_count", Value.num 5)]⟩]⟩ : ChatResult)
    = ⟨[⟨⟨MessageKind.ai,
          (⟨"t", Option.some (Value.str "d"), Option.some (Value.str "c"),
            Option.some (Value.str "sr"), Option.some (Value.str "sq"),
            Option.some (Value.num 5)⟩ : CohereResponse).text⟩,
        if (⟨"t", Option.some (Value.str "d"), Option.some (Value.str "c"),
             Option.some (Value.str "sr"), Option.some (Value.str "sq"),
             Option.some (Value.num 5)⟩ : CohereResponse).documents.isSome then
          Option.some
            [("documents",
              (⟨"t", Option.some (Value.str "d"), Option.some (Value.str "c"),
                Option.some (Value.str "sr"), Option.some (Value.str "sq"),
                Option.some (Value.num 5)⟩ : CohereResponse).documents.getD Value.none),
             ("citations",
              (⟨"t", Option.some (Value.str "d"), Option.some (Value.str "c"),
                Option.some (Value.str "sr"), Option.some (Value.str "sq"),
                Option.some (Value.num 5)⟩ : CohereResponse).citations.getD Value.none),
             ("search_results",
              (⟨"t", Option.some (Value.str "d"), Option.some (Value.str "c"),
                Option.some (Value.str "sr"), Option.some (Value.str "sq"),
                Option.some (Value.num 5)⟩ : CohereResponse).search_results.getD Value.none),
             ("search_queries",
              (⟨"t", Option.some (Value.str "d"), Option.some (Value.str "c"),
                Option.some (Value.str "sr"), Option.some (Value.str "sq"),
                Option.some (Value.num 5)⟩ : CohereResponse).search_queries.getD Value.none),
             ("token_count",
              (⟨"t", Option.some (Value.str "d"), Option.some (Value.str "c"),
                Option.some (Value.str "sr"), Option.some (Value.str "sq"),
                Option.some (Value.num 5)⟩ : CohereResponse).token_count.getD Value.none)]
        else Option.none⟩]⟩ :=
  generate_result_spec
    ⟨"t", Option.some (Value.str "d"), Option.some (Value.str "c"),
     Option.some (Value.str "sr"), Option.some (Value.str "sq"),
     Option.some (Value.num 5)⟩ _ (by decide)

/-- Claim C7 counterexample: a response with a documents attribute but no
citations attribute makes the unwrapping raise an AttributeError instead of
silently omitting the missing field from the result. -/
theorem missing_citations_error :
    get_generation_info
      ⟨"t", Option.some (Value.str "d"), Option.none, Option.some (Value.str "sr"),
       Option.some (Value.str "sq"), Option.some (Value.num 1)⟩
      = Except.error "AttributeError: citations" ∧
    generateUnwrap
      ⟨"t", Option.some (Value.str "d"), Option.none, Option.some (Value.str "sr"),
       Option.some (Value.str "sq"), Option.some (Value.num 1)⟩
      = Except.error "AttributeError: citations" := by decide

/-- Claim C7 (amended): a response lacking the documents attribute yields a
result whose metadata is silently omitted as a whole (generation_info None, no
error); but when documents is present the four remaining fields are read
unconditionally, and the first missing one raises an AttributeError rather
than being omitted from the result. -/
theorem metadata_omission (r : CohereResponse) :
    (r.documents = Option.none →
      generateUnwrap r = Except.ok ⟨[⟨⟨MessageKind.ai, r.text⟩, Option.none⟩]⟩) ∧
    (r.documents ≠ Option.none → r.citations = Option.none →
      generateUnwrap r = Except.error "AttributeError: citations") ∧
    (r.documents ≠ Option.none → r.citations ≠ Option.none →
      r.search_results = Option.none →
      generateUnwrap r = Except.error "AttributeError: search_results") ∧
    (r.documents ≠ Option.none → r.citations ≠ Option.none →
      r.search_results ≠ Option.none → r.search_queries = Option.none →
      generateUnwrap r = Except.error "AttributeError: search_queries") ∧
    (r.documents ≠ Option.none → r.citations ≠ Option.none →
      r.search_results ≠ Option.none → r.search_queries ≠ Option.none →
      r.token_count = Option.none →
      generateUnwrap r = Except.error "AttributeError: token_count") := by
  obtain ⟨t, od, oc, osr, osq, otc⟩ := r
  cases od <;> cases oc <;> cases osr <;> cases osq <;> cases otc <;>
    simp [generateUnwrap, get_generation_info]

/-- Witness for the amended C7: a response with no documents attribute is
unwrapped without metadata and without error; one with documents but no
citations raises the AttributeError. -/
theorem metadata_omission_witness :
    generateUnwrap ⟨"t", Option.none, Option.none, Option.none, Option.none, Option.none⟩
      = Except.ok ⟨[⟨⟨MessageKind.ai, "t"⟩, Option.none⟩]⟩ ∧
    generateUnwrap ⟨"u", Option.some (Value.str "d"), Option.none, Option.none,
        Option.none, Option.none⟩
      = Except.error "AttributeError: citations" :=
  ⟨(metadata_omission
      ⟨"t", Option.none, Option.none, Option.none, Option.none, Option.none⟩).1 rfl,
   (metadata_omission
      ⟨"u", Option.some (Value.str "d"), Option.none, Option.none, Option.none,
       Option.none⟩).2.1 (by decide) rfl⟩

end CohereChat
